import Mathlib

/-!
# CDI grading tool — verification of the grading engine and device discovery

Shallow embedding of `src/cdi_health/core/grading_engine.py` and the
aggregation structure of `src/cdi_health/core/device_manager.py`.

Telemetry values are JSON-like Python values (parsed from `smartctl -j` /
`nvme ... -o json` output); we model them with the `Json` inductive below.
JSON numbers consumed by the grading engine are integral (sector counts,
percentages, minutes, hours, data units), so `Json` carries `Int` numerics.

Python dictionary access is modelled totally: `d.get(k, default)` on a
non-dict value would raise `AttributeError` in Python (and `k in d` a
`TypeError` on an int); every such access in the engine sits under the
per-device `try/except` that maps any exception to `Error/DataReadError`.
We totalise these accesses (non-dict behaves as an empty dict) and keep an
explicit `Except` effect only where an exception is actually reachable from
well-typed telemetry: the `int`-vs-JSON comparisons in the NVMe checks and
the tuple-vs-int comparison in the SATA/SAS workload check.

Floating point: the only float arithmetic in the engine is the workload
TB/year computation; we use `ℚ` (exact). No claim below depends on a
workload value near a rounding boundary.
-/

/-- A JSON-like Python value as produced by `json.loads`. -/
inductive Json where
  | null : Json
  | bool (b : Bool) : Json
  | int (n : Int) : Json
  | str (s : String) : Json
  | arr (elems : List Json) : Json
  | obj (entries : List (String × Json)) : Json

/-- Python truthiness (`if x:`): `None`, `False`, `0`, `""`, `[]`, `{}` are falsy. -/
def Json.pyFalsy : Json → Bool
  | .null => true
  | .bool b => !b
  | .int n => n == 0
  | .str s => s == ""
  | .arr xs => xs.isEmpty
  | .obj kvs => kvs.isEmpty

/-- Is this value Python `None` (`x is None`)? `json.loads` maps JSON `null`
to Python `None`. -/
def Json.isNull : Json → Bool
  | .null => true
  | _ => false

/-- Is this value a Python dict (`isinstance(x, dict)`)? -/
def Json.isObj : Json → Bool
  | .obj _ => true
  | _ => false

/-- Python `x.get(k)`: `none` when the key is missing. Totalised on non-dict values
(Python would raise `AttributeError`; see module comment). -/
def Json.lookup : Json → String → Option Json
  | .obj kvs, k => (kvs.find? (fun kv => kv.1 == k)).map (fun kv => kv.2)
  | _, _ => none

/-- Python `x.get(k, default)`. -/
def Json.getD (j : Json) (k : String) (d : Json) : Json :=
  (j.lookup k).getD d

/-- Python `k in x` for a dict. Totalised on non-dict values (see module comment). -/
def Json.hasKey (j : Json) (k : String) : Bool :=
  (j.lookup k).isSome

/-- The elements iterated by `for e in x` when `x` is a JSON array. -/
def Json.elems : Json → List Json
  | .arr xs => xs
  | _ => []

/-- Python `int(x)` as used under `try/except (ValueError, TypeError)`:
`none` models the exception being raised. `int(True) = 1`. String parsing
is modelled by `String.toInt?`. -/
def pyToInt : Json → Option Int
  | .int n => some n
  | .bool b => some (if b then 1 else 0)
  | .str s => s.toInt?
  | _ => none

/-- Python `x == n` for a JSON value against an int literal: value equality
for ints (and bools, which are ints in Python), `False` for every other
type; `None == n` is `False`. Never raises. -/
def jsonEqInt : Option Json → Int → Bool
  | some (.int m), n => m == n
  | some (.bool b), n => (if b then (1 : Int) else 0) == n
  | _, _ => false

/-- Python `x == s` for a JSON value against a string. -/
def jsonEqStr : Option Json → String → Bool
  | some (.str t), s => t == s
  | _, _ => false

/-- Exceptions that the grading engine can raise while evaluating a device;
they are caught at the per-device boundary in `grade_device`. -/
inductive PyExc where
  | typeError : PyExc
deriving DecidableEq

/-- The `TransportProtocol` enum from `device_manager.py`. -/
inductive TransportProtocol where
  | SATA | SAS | NVME | UNKNOWN
deriving DecidableEq

/-- The `StorageDevice` dataclass from `device_manager.py`. -/
structure StorageDevice where
  path : String
  protocol : TransportProtocol
  vendor : String
  model : String
  serial : String
  firmware : String
  capacity_bytes : Int
  smart_data : Json
  nvme_data : Option Json := none
  sas_data : Option Json := none

/-- The `DeviceStatus` enum from `grading_engine.py`. -/
inductive DeviceStatus where
  | PASS | FAIL | FLAGGED | ERROR
deriving DecidableEq

/-- The `FlagReason` enum from `grading_engine.py`. -/
inductive FlagReason where
  | HEAVY_USE | TEMP_WARNING
deriving DecidableEq

/-- The `FailureReason` enum from `grading_engine.py`. -/
inductive FailureReason where
  | FAILED_SELF_TEST | PENDING_SECTORS | REALLOCATED_SECTORS | PERCENT_USED
  | AVAILABLE_SPARE | MEDIA_ERRORS | CRITICAL_TEMP | DATA_READ_ERROR
deriving DecidableEq

/-- The `GradedDevice` dataclass from `grading_engine.py`. -/
structure GradedDevice where
  device : StorageDevice
  status : DeviceStatus
  failure_reason : Option FailureReason := none
  flag_reason : Option FlagReason := none
  workload_tb_per_year : Option ℚ := none

/-! Threshold constants of `GradingEngine` ("Thresholds from PRD"). -/

def PENDING_SECTORS_THRESHOLD : Int := 10
def REALLOCATED_SECTORS_THRESHOLD : Int := 10
def PERCENT_USED_THRESHOLD : Int := 100
def AVAILABLE_SPARE_THRESHOLD : Int := 97
def WORKLOAD_THRESHOLD_TB_PER_YEAR : ℚ := 550
def MEDIA_ERRORS_THRESHOLD : Int := 10
def CRITICAL_TEMP_TIME_THRESHOLD : Int := 0
def WARNING_TEMP_TIME_THRESHOLD : Int := 60

/-- Python `x > n` where `x` came straight out of JSON and `n` is an int:
defined for ints and bools, raises `TypeError` otherwise (`None > 0`,
`"s" > 0` raise in Python 3). -/
def pyGtInt : Json → Int → Except PyExc Bool
  | .int m, n => .ok (decide (m > n))
  | .bool b, n => .ok (decide ((if b then (1 : Int) else 0) > n))
  | _, _ => .error .typeError

/-- Python `x <= n` for a JSON value against an int, raising `TypeError` on
non-numeric values. -/
def pyLeInt : Json → Int → Except PyExc Bool
  | .int m, n => .ok (decide (m ≤ n))
  | .bool b, n => .ok (decide ((if b then (1 : Int) else 0) ≤ n))
  | _, _ => .error .typeError

/-- The scan of the SMART attribute table inside `_get_smart_attribute`:
`for attr in attributes: if attr.get("id") == attr_id: return attr;
if attr_name and attr.get("name") == attr_name: return attr`.
(`if attr_name` is Python truthiness: `None` and `""` are falsy.) -/
def find_attr (attr_id : Int) (attr_name : Option String) : List Json → Option Json
  | [] => none
  | attr :: rest =>
    if jsonEqInt (attr.lookup "id") attr_id then some attr
    else if (match attr_name with
             | some name => !(name == "") && jsonEqStr (attr.lookup "name") name
             | none => false) then some attr
    else find_attr attr_id attr_name rest

/-- Source `GradingEngine._get_smart_attribute`: retrieve a SMART attribute by ID
or name from `smart_data["ata_smart_attributes"]["table"]`. -/
def get_smart_attribute (smart_data : Json) (attr_id : Int)
    (attr_name : Option String) : Option Json :=
  if smart_data.pyFalsy || !(smart_data.hasKey "ata_smart_attributes") then none
  else
    let attributes := (smart_data.getD "ata_smart_attributes" .null).getD "table" (.arr [])
    find_attr attr_id attr_name attributes.elems

/-- Source `GradingEngine._get_attribute_raw_value`: `int(attribute["raw"]["value"])`
with 0 on a missing/falsy attribute or failed conversion. -/
def get_attribute_raw_value (attr_opt : Option Json) : Int :=
  match attr_opt with
  | some attr =>
    if !attr.pyFalsy && attr.hasKey "raw" && (attr.getD "raw" .null).hasKey "value" then
      (pyToInt ((attr.getD "raw" .null).getD "value" .null)).getD 0
    else 0
  | none => 0

/-- Source `GradingEngine._get_attribute_value`: `int(attribute["value"])` with 100
on a missing/falsy attribute or failed conversion. -/
def get_attribute_value (attr_opt : Option Json) : Int :=
  match attr_opt with
  | some attr =>
    if !attr.pyFalsy && attr.hasKey "value" then
      (pyToInt (attr.getD "value" .null)).getD 100
    else 100
  | none => 100

/-- Source `GradingEngine._has_failed_self_test`. The source body is
`# TODO: Implement self-test history checking` / `return False`: it ignores
the device entirely. -/
def has_failed_self_test (_device : StorageDevice) : Bool :=
  false

/-- Source `GradingEngine._calculate_workload`, first half: the
`(host_reads_bytes, host_writes_bytes, poh_hours)` triple gathered from
SATA/SAS SMART data and/or the NVMe health log before conversion. The MiB /
data-unit source fields are read with `pyToInt`-or-0 semantics
(`.get(key, 0)` followed by int arithmetic; a non-numeric value here would
make Python raise later in the arithmetic, which the device boundary maps to
the same `Error` outcome as any other exception). -/
def workload_inputs (device : StorageDevice) : Int × Int × Option Json :=
  -- host_reads_bytes = 0; host_writes_bytes = 0; poh_hours = None
  let state : Int × Int × Option Json := (0, 0, none)
  -- if device.smart_data:
  let state :=
    if !device.smart_data.pyFalsy then
      let host_reads_mib :=
        ((pyToInt ((device.smart_data.getD "ata_smart_data" (.obj [])).getD "host_reads_mib" (.int 0))).getD 0)
      let host_writes_mib :=
        ((pyToInt ((device.smart_data.getD "ata_smart_data" (.obj [])).getD "host_writes_mib" (.int 0))).getD 0)
      (host_reads_mib * 1024 * 1024,
       host_writes_mib * 1024 * 1024,
       (device.smart_data.getD "power_on_time" (.obj [])).lookup "hours")
    else state
  -- if device.nvme_data:
  let state :=
    match device.nvme_data with
    | some nd =>
      if !nd.pyFalsy then
        match nd.lookup "nvme_smart_health_information_log" with
        | some health_log =>
          if health_log.isObj then
            let data_units_read := (pyToInt (health_log.getD "data_units_read" (.int 0))).getD 0
            let data_units_written := (pyToInt (health_log.getD "data_units_written" (.int 0))).getD 0
            (data_units_read * 512 * 1000,
             data_units_written * 512 * 1000,
             -- Use NVMe POH if available, otherwise keep SATA/SAS value
             match health_log.lookup "power_on_hours" with
             | some p => some p
             | none => state.2.2)
          else state
        | none => state
      else state
    | none => state
  state

/-- Second half of `_calculate_workload`: the POH conversion and the TB/year
division; returns `(workload_tb_per_year, poh_hours)`. The constant `365.25`
is exactly `1461/4`; Python float division is modelled exactly in `ℚ`. -/
def calculate_workload (device : StorageDevice) : Option ℚ × Option Int :=
  let state := workload_inputs device
  let total_bytes := state.1 + state.2.1
  match state.2.2 with
  | none => (none, none)
  | some poh =>
    -- try: poh_hours_int = int(poh_hours) except -> return None, None
    match pyToInt poh with
    | none => (none, none)
    | some poh_hours_int =>
      if poh_hours_int ≤ 0 then (none, some poh_hours_int)
      else
        let poh_years : ℚ := (poh_hours_int : ℚ) / (24 * (1461 / 4 : ℚ))
        let workload_tb : ℚ := ((total_bytes : ℚ) / (1024 : ℚ) ^ 4) / poh_years
        (some workload_tb, some poh_hours_int)

/-- The health-log value used by `_grade_nvme_device`:
`health_log = device.nvme_data.get("nvme_smart_health_information_log")`
replaced by `{}` when it is not a dict. -/
def nvmeHealthLog (nd : Json) : Json :=
  match nd.lookup "nvme_smart_health_information_log" with
  | some h => if h.isObj then h else .obj []
  | none => .obj []

/-- Source `GradingEngine._grade_nvme_device`. The comparisons against JSON values
can raise `TypeError` on non-numeric telemetry; exceptions propagate to the
caller (`_grade_device`) which catches them. -/
def grade_nvme_device (device : StorageDevice) : Except PyExc GradedDevice :=
  match device.nvme_data with
  | none => .ok ⟨device, .ERROR, some .DATA_READ_ERROR, none, none⟩
  | some nd =>
    let health_log := nvmeHealthLog nd
    -- Check percentage used
    match pyGtInt (health_log.getD "percentage_used" (.int 0)) PERCENT_USED_THRESHOLD with
    | .error e => .error e
    | .ok true => .ok ⟨device, .FAIL, some .PERCENT_USED, none, none⟩
    | .ok false =>
    -- Check available spare (with "avail_spare" fallback key)
    match pyLeInt (health_log.getD "available_spare" (health_log.getD "avail_spare" (.int 100)))
            AVAILABLE_SPARE_THRESHOLD with
    | .error e => .error e
    | .ok true => .ok ⟨device, .FAIL, some .AVAILABLE_SPARE, none, none⟩
    | .ok false =>
    -- Check media errors
    match pyGtInt (health_log.getD "media_errors" (.int 0)) MEDIA_ERRORS_THRESHOLD with
    | .error e => .error e
    | .ok true => .ok ⟨device, .FAIL, some .MEDIA_ERRORS, none, none⟩
    | .ok false =>
    -- Check critical temperature time ("critical_comp_time" key)
    match pyGtInt (health_log.getD "critical_comp_time" (.int 0)) CRITICAL_TEMP_TIME_THRESHOLD with
    | .error e => .error e
    | .ok true => .ok ⟨device, .FAIL, some .CRITICAL_TEMP, none, none⟩
    | .ok false =>
    -- Check warning temperature time
    match pyGtInt (health_log.getD "warning_temp_time" (.int 0)) WARNING_TEMP_TIME_THRESHOLD with
    | .error e => .error e
    | .ok true => .ok ⟨device, .PASS, none, some .TEMP_WARNING, none⟩
    | .ok false =>
    -- workload, poh = self._calculate_workload(device)
    match calculate_workload device with
    | (some workload, _) =>
      if workload > WORKLOAD_THRESHOLD_TB_PER_YEAR then
        .ok ⟨device, .PASS, none, some .HEAVY_USE, some workload⟩
      else .ok ⟨device, .PASS, none, none, none⟩
    | (none, _) => .ok ⟨device, .PASS, none, none, none⟩

/-- Source `GradingEngine._grade_sata_sas_device`. All attribute-derived comparisons
are int-vs-int and cannot raise; the final workload check is
`workload = self._calculate_workload(device)` (a 2-tuple) followed by
`if workload > self.WORKLOAD_THRESHOLD_TB_PER_YEAR:`, and in Python 3 a
tuple-vs-int `>` comparison unconditionally raises `TypeError`, so every
device reaching that line raises; the `return` statements after it
(the HeavyUse flag and the plain Pass) are unreachable. -/
def grade_sata_sas_device (device : StorageDevice) : Except PyExc GradedDevice :=
  -- if device.smart_data is None — smart_data is non-optional here, the
  -- dataclass field is typed `dict`; in the Lean model it is always a Json
  -- value, and the `None` branch is represented by `Json.null`.
  if device.smart_data.isNull then
    .ok ⟨device, .ERROR, some .DATA_READ_ERROR, none, none⟩
  else
    -- Check pending sectors (ID 197)
    let pending_sectors_attr := get_smart_attribute device.smart_data 197 (some "Current_Pending_Sector")
    let pending_sectors_count := get_attribute_raw_value pending_sectors_attr
    if pending_sectors_count > PENDING_SECTORS_THRESHOLD then
      .ok ⟨device, .FAIL, some .PENDING_SECTORS, none, none⟩
    else
    -- Check reallocated sectors (ID 5)
    let reallocated_sectors_attr := get_smart_attribute device.smart_data 5 (some "Reallocated_Sector_Ct")
    let reallocated_sectors_count := get_attribute_raw_value reallocated_sectors_attr
    if reallocated_sectors_count > REALLOCATED_SECTORS_THRESHOLD then
      .ok ⟨device, .FAIL, some .REALLOCATED_SECTORS, none, none⟩
    else
    -- Check percentage used: ID 231 "SSD_Life_Left" normalized value,
    -- with a fallback to the raw value of name "Percent_Lifetime_Used"
    let percent_used_attr := get_smart_attribute device.smart_data 231 (some "SSD_Life_Left")
    let life_left_value := get_attribute_value percent_used_attr
    let percentage_used := 100 - life_left_value
    let percentage_used :=
      if percent_used_attr.isNone then
        get_attribute_raw_value (get_smart_attribute device.smart_data (-1) (some "Percent_Lifetime_Used"))
      else percentage_used
    if percentage_used > PERCENT_USED_THRESHOLD then
      .ok ⟨device, .FAIL, some .PERCENT_USED, none, none⟩
    else
    -- Check available spare (ID 173, normalized value)
    let available_spare_attr := get_smart_attribute device.smart_data 173 (some "Available_Reservd_Space")
    let available_spare_value := get_attribute_value available_spare_attr
    if available_spare_value ≤ AVAILABLE_SPARE_THRESHOLD then
      .ok ⟨device, .FAIL, some .AVAILABLE_SPARE, none, none⟩
    else
    -- workload = self._calculate_workload(device)   (a 2-tuple!)
    let _workload := calculate_workload device
    -- if workload > self.WORKLOAD_THRESHOLD_TB_PER_YEAR:  → TypeError
    .error .typeError

/-- Python truthiness of `device.nvme_data` (`not device.nvme_data`):
`None` and an empty dict are both falsy. -/
def nvmeDataFalsy : Option Json → Bool
  | none => true
  | some j => j.pyFalsy

/-- The body of `GradingEngine._grade_device` inside the `try:` block. -/
def grade_device_body (device : StorageDevice) : Except PyExc GradedDevice :=
  -- if not device.smart_data and not device.nvme_data:
  if device.smart_data.pyFalsy && nvmeDataFalsy device.nvme_data then
    .ok ⟨device, .ERROR, some .DATA_READ_ERROR, none, none⟩
  else if has_failed_self_test device then
    .ok ⟨device, .FAIL, some .FAILED_SELF_TEST, none, none⟩
  else if device.protocol == .NVME then
    grade_nvme_device device
  else  -- SATA or SAS
    grade_sata_sas_device device

/-- Source `GradingEngine._grade_device`: the `try/except Exception` wrapper that
converts any exception raised while grading one device into
`Error/DataReadError` for that device. -/
def grade_device (device : StorageDevice) : GradedDevice :=
  match grade_device_body device with
  | .ok graded => graded
  | .error _ => ⟨device, .ERROR, some .DATA_READ_ERROR, none, none⟩

/-- Source `GradingEngine.grade_devices`: grade a list of storage devices. -/
def grade_devices (devices : List StorageDevice) : List GradedDevice :=
  devices.map grade_device

/-! ## Device discovery (`device_manager.py`)

`scan_devices` and `_parse_nvme_list` drive external commands; their effects
are abstracted into a `ScanEnv` record holding the outcome each external
interaction would produce, so the aggregation structure of the source can be
stated and proved. -/

/-- Python `not line.strip()`: the line is blank (empty or all whitespace).
Written by structural recursion over the character list so the kernel can
evaluate it on literals. -/
def isBlankLine (line : String) : Bool :=
  line.data.all (fun c => c.isWhitespace)

/-- Python `line.split()[0]`: the first whitespace-separated token of a scan line
(leading whitespace dropped, then characters up to the next whitespace). -/
def firstToken (line : String) : String :=
  ⟨(line.data.dropWhile Char.isWhitespace).takeWhile (fun c => !c.isWhitespace)⟩

/-- Outcomes of the external commands that `DeviceManager.scan_devices` and
`_parse_nvme_list` run. `none` models the exception branch the source
catches for that interaction:
* `smartctl_scan = none`: `smartctl --scan` raised `CalledProcessError`
  (the whole SATA/SAS loop is skipped);
* `collect_sata_sas path = none`: `_collect_sata_sas_data` returned `None`
  (command failure, timeout, unparseable JSON, or unexpected error);
* `nvme_list = none`: `nvme list` raised `CalledProcessError`, or its output
  failed to JSON-decode inside `_parse_nvme_list` (both yield no devices);
* an entry `none` in `nvme_list`: the per-device body of `_parse_nvme_list`
  raised and hit the `except ... continue` at its end. -/
structure ScanEnv where
  smartctl_scan : Option (List String)
  detect_protocol : String → TransportProtocol
  collect_sata_sas : String → Option StorageDevice
  nvme_list : Option (List (Option StorageDevice))

/-- The SATA/SAS half of `scan_devices`: for each non-blank scan line, detect
the protocol and, for SATA/SAS, append the collected device when collection
succeeded (`if device: devices.append(device)`). -/
def sata_scan_loop (env : ScanEnv) : List String → List StorageDevice
  | [] => []
  | line :: rest =>
    if isBlankLine line then sata_scan_loop env rest
    else
      let path := firstToken line
      let protocol := env.detect_protocol path
      if protocol == .SATA || protocol == .SAS then
        match env.collect_sata_sas path with
        | some device => device :: sata_scan_loop env rest
        | none => sata_scan_loop env rest
      else sata_scan_loop env rest

/-- Source `DeviceManager._parse_nvme_list`: every `Devices` entry whose processing
raised is skipped (`continue`); successful entries are appended in order. -/
def parse_nvme_list (entries : List (Option StorageDevice)) : List StorageDevice :=
  entries.filterMap id

/-- Source `DeviceManager.scan_devices`: SATA/SAS results followed by NVMe results.
The returned value is the single `devices` list — the function has no other
output channel. -/
def scan_devices (env : ScanEnv) : List StorageDevice :=
  (match env.smartctl_scan with
   | some lines => sata_scan_loop env lines
   | none => []) ++
  (match env.nvme_list with
   | some entries => parse_nvme_list entries
   | none => [])

/-- The SATA/SAS candidate paths of a scan: first token of each non-blank
line whose detected protocol is SATA or SAS. -/
def sata_candidates (env : ScanEnv) : List String :=
  match env.smartctl_scan with
  | some lines =>
    ((lines.filter (fun l => !isBlankLine l)).map firstToken).filter
      (fun p => env.detect_protocol p == .SATA || env.detect_protocol p == .SAS)
  | none => []

/-- The synthetic "basic health log" that `_parse_nvme_list` constructs when
no tool returned a health log (`device_manager.py`, "Constructing basic
health log from available data"). -/
def fallback_nvme_health_log : Json := .obj [
  ("critical_warning", .int 0),
  ("temperature", .int 0),
  ("available_spare", .int 100),
  ("available_spare_threshold", .int 10),
  ("percentage_used", .int 0),
  ("data_units_read", .int 0),
  ("data_units_written", .int 0),
  ("host_reads", .int 0),
  ("host_writes", .int 0),
  ("media_errors", .int 0),
  ("num_err_log_entries", .int 0)]

/-- The `StorageDevice` that `_parse_nvme_list` builds for an NVMe device
when the health log could not be read from any tool (`nvme smart-log`,
`smartctl --xall`, `sg_logs` all failed), the error/firmware/self-test log
reads failed, and the identity reads failed too: `smart_data = {}`,
identity fields `"Unknown"`, and `nvme_data` holding only the synthetic
fallback health log. -/
def nvme_unreadable_health_device : StorageDevice :=
  ⟨"/dev/nvme0n1", .NVME, "Unknown", "Unknown", "Unknown", "Unknown", 0,
   .obj [],
   some (.obj [("nvme_smart_health_information_log", fallback_nvme_health_log)]),
   none⟩

/-! ## Legacy SCSI grading fragment (`classes/devices.py`, `SCSIProtocol.__init__`)

The legacy grader in the same repository maps the SCSI grown defect list to
`device.reallocated_sectors` (`smartctl.get("scsi_grown_defect_list", -1)`)
and fails the device when it reaches `CDI_MAXIMUM_REALLOCATED_SECTORS`. -/

def CDI_MAXIMUM_REALLOCATED_SECTORS : Int := 10

/-- Legacy check `device.reallocated_sectors >= CDI_MAXIMUM_REALLOCATED_SECTORS`
with `reallocated_sectors = smartctl.get("scsi_grown_defect_list", -1)`.
(Comparing a non-numeric JSON value would raise in Python; modelled `false`.) -/
def legacy_scsi_fails_reallocated (smartctl : Json) : Bool :=
  match smartctl.getD "scsi_grown_defect_list" (.int (-1)) with
  | .int n => decide (n ≥ CDI_MAXIMUM_REALLOCATED_SECTORS)
  | .bool b => decide ((if b then (1 : Int) else 0) ≥ CDI_MAXIMUM_REALLOCATED_SECTORS)
  | _ => false

/-! ## Concrete devices for the scenario claims -/

/-- Scenario A telemetry: ATA device, `smart_status.passed = true`,
reallocated sectors 3, pending sectors 0, no SSD wear attributes
(percent used resolves to 0), power-on hours reported. -/
def scenarioA_smart : Json := .obj [
  ("model_name", .str "Test HDD"),
  ("serial_number", .str "SN-A"),
  ("firmware_version", .str "1.0"),
  ("smart_status", .obj [("passed", .bool true)]),
  ("ata_smart_attributes", .obj [("table", .arr [
    .obj [("id", .int 5), ("name", .str "Reallocated_Sector_Ct"),
          ("value", .int 100), ("worst", .int 100),
          ("raw", .obj [("value", .int 3), ("string", .str "3")])],
    .obj [("id", .int 197), ("name", .str "Current_Pending_Sector"),
          ("value", .int 100), ("worst", .int 100),
          ("raw", .obj [("value", .int 0), ("string", .str "0")])]])]),
  ("power_on_time", .obj [("hours", .int 1000)])]

/-- Scenario A device (ATA over SATA). -/
def scenarioA_device : StorageDevice :=
  ⟨"/dev/sda", .SATA, "TestVendor", "Test HDD", "SN-A", "1.0", 1000000000000,
   scenarioA_smart, none, none⟩

/-- Scenario C telemetry: SCSI device reporting a grown defect list of 20
entries; no ATA attribute table (SCSI drives have none). -/
def scenarioC_smart : Json := .obj [
  ("model_name", .str "Test SAS HDD"),
  ("serial_number", .str "SN-C"),
  ("smart_status", .obj [("passed", .bool true)]),
  ("scsi_grown_defect_list", .int 20),
  ("power_on_time", .obj [("hours", .int 5000)])]

/-- Scenario C device (SCSI over SAS). -/
def scenarioC_device : StorageDevice :=
  ⟨"/dev/sg0", .SAS, "TestVendor", "Test SAS HDD", "SN-C", "2.0", 2000000000000,
   scenarioC_smart, none, none⟩

/-- An NVMe device whose self-test log records a failed self-test outcome
(NVMe self-test result code 7 = failed segment), with otherwise healthy
telemetry. -/
def failed_self_test_device : StorageDevice :=
  ⟨"/dev/nvme1n1", .NVME, "TestVendor", "Test NVMe", "SN-ST", "3.0", 512000000000,
   .obj [],
   some (.obj [
     ("nvme_smart_health_information_log", .obj [
       ("percentage_used", .int 1),
       ("available_spare", .int 100),
       ("media_errors", .int 0),
       ("critical_comp_time", .int 0),
       ("warning_temp_time", .int 0)]),
     ("self_test_log", .obj [
       ("current_self_test_operation", .int 0),
       ("result", .arr [.obj [
         ("self_test_result", .int 7),
         ("self_test_status", .str "failed")]])])]),
   none⟩

/-- A device with no telemetry at all: empty `smart_data`, no `nvme_data`. -/
def no_telemetry_device : StorageDevice :=
  ⟨"/dev/sdz", .SATA, "Unknown", "Unknown", "Unknown", "Unknown", 0,
   .obj [], none, none⟩

/-- NVMe device template for the available-spare boundary: healthy health
log with the given `available_spare` value. -/
def spare_boundary_device (s : Int) : StorageDevice :=
  ⟨"/dev/nvme2n1", .NVME, "TestVendor", "Test NVMe B", "SN-B", "1.2", 512000000000,
   .obj [],
   some (.obj [("nvme_smart_health_information_log", .obj [
     ("percentage_used", .int 10),
     ("available_spare", .int s),
     ("media_errors", .int 0),
     ("critical_comp_time", .int 0),
     ("warning_temp_time", .int 0)])]),
   none⟩

/-- A SATA device with minimal truthy telemetry (model name only): every
attribute check resolves to its default and the device reaches the SATA/SAS
workload comparison. -/
def minimal_sata_device : StorageDevice :=
  ⟨"/dev/sdb", .SATA, "TestVendor", "Minimal HDD", "SN-M", "1.0", 0,
   .obj [("model_name", .str "Minimal HDD")], none, none⟩

/-- SMART attribute table in which an earlier entry matches the fallback
name `"Current_Pending_Sector"` while a later entry carries the requested
id 197. -/
def shadowed_table : List Json := [
  .obj [("id", .int 5), ("name", .str "Current_Pending_Sector"),
        ("raw", .obj [("value", .int 999)])],
  .obj [("id", .int 197), ("name", .str "Renamed_Pending"),
        ("raw", .obj [("value", .int 0)])]]

/-- Telemetry wrapping `shadowed_table`. -/
def shadowed_smart : Json :=
  .obj [("ata_smart_attributes", .obj [("table", .arr shadowed_table)])]

/-- Environment for a scan with exactly one SATA candidate whose probe
fails (`_collect_sata_sas_data` returns `None`) and no NVMe devices. -/
def one_failing_candidate_env : ScanEnv :=
  ⟨some ["/dev/sda -d sat # /dev/sda [SAT], ATA device"],
   fun _ => .SATA,
   fun _ => none,
   some []⟩

/-- A SATA device whose telemetry reports `power_on_time.hours = 0`
(non-positive POH). -/
def zero_poh_device : StorageDevice :=
  ⟨"/dev/sdc", .SATA, "TestVendor", "ZeroPOH HDD", "SN-Z", "1.0", 0,
   .obj [("model_name", .str "ZeroPOH HDD"),
         ("power_on_time", .obj [("hours", .int 0)])],
   none, none⟩

/-- The shape invariant of every graded result: status is one of
Pass/Fail/Error, failure reason accompanies exactly Fail and Error, a flag
only accompanies Pass, and the two reasons are mutually exclusive. -/
def grade_invariant (g : GradedDevice) : Prop :=
  (g.status = .PASS ∨ g.status = .FAIL ∨ g.status = .ERROR) ∧
  (g.failure_reason ≠ none ↔ (g.status = .FAIL ∨ g.status = .ERROR)) ∧
  (g.flag_reason ≠ none → g.status = .PASS) ∧
  ¬(g.failure_reason ≠ none ∧ g.flag_reason ≠ none)

/-! ## Helper lemmas -/

/-- Every successful NVMe grading result satisfies the shape invariant, and
it carries the `HEAVY_USE` flag only when the workload was determined. -/
theorem grade_nvme_device_result (device : StorageDevice) :
    (∃ e, grade_nvme_device device = .error e) ∨
    (∃ g, grade_nvme_device device = .ok g ∧ grade_invariant g ∧
      (g.flag_reason = some .HEAVY_USE → (calculate_workload device).1 ≠ none)) := by
  unfold grade_nvme_device
  dsimp only
  repeat' split
  all_goals first
    | exact Or.inl ⟨_, rfl⟩
    | exact Or.inr ⟨_, rfl, by simp [grade_invariant], by intro hf; simp_all⟩

/-- Every successful SATA/SAS grading result satisfies the shape invariant
and never carries a flag (the flagging code is unreachable: the workload
comparison raises first). -/
theorem grade_sata_sas_device_result (device : StorageDevice) :
    (∃ e, grade_sata_sas_device device = .error e) ∨
    (∃ g, grade_sata_sas_device device = .ok g ∧ grade_invariant g ∧
      g.flag_reason = none) := by
  unfold grade_sata_sas_device
  dsimp only
  repeat' split
  all_goals first
    | exact Or.inl ⟨_, rfl⟩
    | exact Or.inr ⟨_, rfl, by simp [grade_invariant], rfl⟩

/-- Every result of the grading body satisfies the shape invariant and flags
`HEAVY_USE` only when the workload was determined. -/
theorem grade_device_body_result (device : StorageDevice) :
    (∃ e, grade_device_body device = .error e) ∨
    (∃ g, grade_device_body device = .ok g ∧ grade_invariant g ∧
      (g.flag_reason = some .HEAVY_USE → (calculate_workload device).1 ≠ none)) := by
  unfold grade_device_body
  repeat' split
  · exact Or.inr ⟨_, rfl, by simp [grade_invariant], by intro hf; simp_all⟩
  · exact Or.inr ⟨_, rfl, by simp [grade_invariant], by intro hf; simp_all⟩
  · exact grade_nvme_device_result device
  · rcases grade_sata_sas_device_result device with ⟨e, he⟩ | ⟨g, hg, hinv, hflag⟩
    · exact Or.inl ⟨e, he⟩
    · exact Or.inr ⟨g, hg, hinv, by simp [hflag]⟩

/-- The invariant holds for every graded device, and the `HEAVY_USE` flag
implies a determined workload. -/
theorem grade_device_result (device : StorageDevice) :
    grade_invariant (grade_device device) ∧
    ((grade_device device).flag_reason = some .HEAVY_USE →
      (calculate_workload device).1 ≠ none) := by
  unfold grade_device
  rcases grade_device_body_result device with ⟨e, he⟩ | ⟨g, hg, hinv, hflag⟩
  · rw [he]; exact ⟨by simp [grade_invariant], by intro hf; simp_all⟩
  · rw [hg]; exact ⟨hinv, hflag⟩

/-- Lemma: `find_attr` is a single first-match scan: it returns the first table
entry matching the requested id or (when the fallback name is given and
non-empty) the fallback name, in table order. -/
theorem find_attr_eq_find (attr_id : Int) (attr_name : Option String)
    (l : List Json) :
    find_attr attr_id attr_name l = l.find? (fun attr =>
      jsonEqInt (attr.lookup "id") attr_id ||
      (match attr_name with
       | some name => !(name == "") && jsonEqStr (attr.lookup "name") name
       | none => false)) := by
  induction l with
  | nil => rfl
  | cons attr rest ih =>
    unfold find_attr
    rw [List.find?_cons]
    rcases hid : jsonEqInt (attr.lookup "id") attr_id
    · rcases hname : (match attr_name with
        | some name => !(name == "") && jsonEqStr (attr.lookup "name") name
        | none => false)
      · simp [hid, hname, ih]
      · simp [hid, hname]
    · simp [hid]

/-- The SATA/SAS scan loop keeps exactly the successfully collected
candidates, in order. -/
theorem sata_scan_loop_eq (env : ScanEnv) (lines : List String) :
    sata_scan_loop env lines =
      (((lines.filter (fun l => !isBlankLine l)).map firstToken).filter
        (fun p => env.detect_protocol p == .SATA || env.detect_protocol p == .SAS)).filterMap
        env.collect_sata_sas := by
  induction lines with
  | nil => rfl
  | cons line rest ih =>
    unfold sata_scan_loop
    rcases hb : isBlankLine line
    · simp only [hb, Bool.false_eq_true, if_false, Bool.not_false, List.filter_cons_of_pos,
        List.map_cons]
      rcases hp : env.detect_protocol (firstToken line) == .SATA ||
          env.detect_protocol (firstToken line) == .SAS
      · simp [hp, ih]
      · simp only [hp, if_true, List.filter_cons_of_pos, List.filterMap_cons]
        rcases hc : env.collect_sata_sas (firstToken line)
        · simp [hc, ih]
        · simp [hc, ih]
    · simp [hb, ih]

/-! ## Claim theorems -/

/-- C1: the Scenario A ATA device (pending 0, reallocated 3, percent used 0,
no other threshold exceeded) is NOT graded Pass: the workload check compares
the `(workload, poh)` tuple returned by `_calculate_workload` against an
int, which raises `TypeError`, and the device boundary converts that into
`Error/DataReadError`. The last two conjuncts document that the pending and
reallocated counts the engine extracted for this device are 0 and 3, i.e.
the claim's premises hold at the input. -/
theorem C1_scenarioA_grades_error :
    grade_device_body scenarioA_device = .error .typeError ∧
    grade_device scenarioA_device =
      ⟨scenarioA_device, .ERROR, some .DATA_READ_ERROR, none, none⟩ ∧
    get_attribute_raw_value
      (get_smart_attribute scenarioA_smart 197 (some "Current_Pending_Sector")) = 0 ∧
    get_attribute_raw_value
      (get_smart_attribute scenarioA_smart 5 (some "Reallocated_Sector_Ct")) = 3 :=
  ⟨rfl, rfl, rfl, rfl⟩

/-- C5: `_has_failed_self_test` is a stub that returns `False` for every
device (its body is a TODO), so a device whose telemetry contains a failed
self-test outcome is not graded `Fail/FailedSelfTest`; the concrete NVMe
device with a failed self-test entry in its self-test log grades plain Pass. -/
theorem C5_failed_self_test_ignored :
    (∀ device : StorageDevice, has_failed_self_test device = false) ∧
    (grade_device failed_self_test_device).status = .PASS ∧
    (grade_device failed_self_test_device).failure_reason = none :=
  ⟨fun _ => rfl, rfl, rfl⟩

/-- C7: the grading engine never consults `scsi_grown_defect_list`: for the
SCSI device reporting a grown defect list of 20, the reallocated-sectors
count it extracts (ATA attribute id 5) is 0, and the device is graded
`Error/DataReadError` (via the tuple-comparison `TypeError` in the workload
check), not `Fail/ReallocatedSectors`. The legacy `SCSIProtocol` grader in
the same repository does fail this telemetry on grown defects (last
conjunct), witnessing the intended behaviour. -/
theorem C7_scsi_grown_defects_not_graded :
    get_attribute_raw_value
      (get_smart_attribute scenarioC_smart 5 (some "Reallocated_Sector_Ct")) = 0 ∧
    (grade_device scenarioC_device).status = .ERROR ∧
    (grade_device scenarioC_device).failure_reason = some .DATA_READ_ERROR ∧
    (grade_device scenarioC_device).failure_reason ≠ some .REALLOCATED_SECTORS ∧
    legacy_scsi_fails_reallocated scenarioC_smart = true :=
  ⟨rfl, rfl, rfl,
   by simp [show (grade_device scenarioC_device).failure_reason = some .DATA_READ_ERROR from rfl],
   rfl⟩

/-- C3 counterexample: an NVMe device whose health log could not be read
from any tool receives the synthetic fallback health log from
`_parse_nvme_list` and is graded Pass, not `Error/DataReadError`. -/
theorem C3_counterexample_unreadable_nvme_passes :
    (grade_device nvme_unreadable_health_device).status = .PASS ∧
    (grade_device nvme_unreadable_health_device).failure_reason = none :=
  ⟨rfl, rfl⟩

/-- C3 (amended): a device with no telemetry at all (falsy `smart_data` and
falsy `nvme_data`) is graded `Error/DataReadError`; but an NVMe device whose
health log could not be read from any tool is given the synthetic fallback
health log by discovery and is graded Pass. -/
theorem C3_no_telemetry_error_but_fallback_passes :
    (∀ device : StorageDevice,
      device.smart_data.pyFalsy = true →
      nvmeDataFalsy device.nvme_data = true →
      grade_device device = ⟨device, .ERROR, some .DATA_READ_ERROR, none, none⟩) ∧
    (grade_device nvme_unreadable_health_device).status = .PASS ∧
    (grade_device nvme_unreadable_health_device).flag_reason = none := by
  refine ⟨?_, rfl, rfl⟩
  intro device h1 h2
  unfold grade_device grade_device_body
  rw [h1, h2]
  rfl

/-- C3 witness: the general no-telemetry clause applied to a concrete device
with empty telemetry. -/
theorem C3_witness :
    grade_device no_telemetry_device =
      ⟨no_telemetry_device, .ERROR, some .DATA_READ_ERROR, none, none⟩ :=
  C3_no_telemetry_error_but_fallback_passes.1 no_telemetry_device rfl rfl

/-- C6 counterexample: in a table whose first entry matches the fallback
name and whose second entry carries the requested id 197, the lookup
returns the first (name-matched) entry even though an id-matched entry
exists: id matching does NOT take precedence over name matching across
table order. -/
theorem C6_counterexample_name_shadows_id :
    get_smart_attribute shadowed_smart 197 (some "Current_Pending_Sector") =
      some (.obj [("id", .int 5), ("name", .str "Current_Pending_Sector"),
                  ("raw", .obj [("value", .int 999)])]) ∧
    shadowed_table.any (fun a => jsonEqInt (a.lookup "id") 197) = true ∧
    jsonEqInt ((Json.obj [("id", .int 5), ("name", .str "Current_Pending_Sector"),
                  ("raw", .obj [("value", .int 999)])]).lookup "id") 197 = false :=
  ⟨rfl, rfl, rfl⟩

/-- C6 (amended): the shared attribute lookup is a single first-match scan:
it returns the first entry in table order that matches the requested numeric
id or (when a non-empty fallback name was supplied) the fallback name; an
id match takes precedence over a name match only within one entry, so an
earlier name-matching entry shadows a later id-matching entry. -/
theorem C6_lookup_is_first_match (smart_data : Json) (attr_id : Int)
    (attr_name : Option String) :
    get_smart_attribute smart_data attr_id attr_name =
      if smart_data.pyFalsy || !(smart_data.hasKey "ata_smart_attributes") then
        none
      else
        ((smart_data.getD "ata_smart_attributes" .null).getD "table" (.arr [])).elems.find?
          (fun attr =>
            jsonEqInt (attr.lookup "id") attr_id ||
            (match attr_name with
             | some name => !(name == "") && jsonEqStr (attr.lookup "name") name
             | none => false)) := by
  unfold get_smart_attribute
  split
  · rfl
  · exact find_attr_eq_find attr_id attr_name _

/-- C4 counterexample: a scan over one SATA candidate whose probe fails
yields zero outcomes — `scan_devices` returns only the results list, the
failed candidate appears nowhere in its output. -/
theorem C4_counterexample_failed_probe_dropped :
    scan_devices one_failing_candidate_env = [] ∧
    (sata_candidates one_failing_candidate_env).length = 1 :=
  ⟨by rfl, by rfl⟩

/-- C4 (amended): `scan_devices` returns exactly the successfully probed
devices, in discovery order: SATA/SAS candidates whose collection failed and
NVMe entries whose processing raised are dropped from the single returned
list, and no separate failures list exists, so a scan over N candidates can
yield fewer than N outcomes. -/
theorem C4_scan_keeps_only_successes (env : ScanEnv) :
    scan_devices env =
      (sata_candidates env).filterMap env.collect_sata_sas ++
      (match env.nvme_list with
       | some entries => entries.filterMap id
       | none => []) := by
  unfold scan_devices sata_candidates parse_nvme_list
  cases env.smartctl_scan with
  | none => rfl
  | some lines =>
    dsimp only
    rw [sata_scan_loop_eq]

/-- C2: grading a batch of N devices yields exactly N results (one per
device, in order), and any exception raised by the grading body of a single
device is converted at that device's boundary into an `Error/DataReadError`
result for that device — it is never propagated to the batch caller. -/
theorem C2_batch_exact_and_exceptions_contained (devices : List StorageDevice) :
    (grade_devices devices).length = devices.length ∧
    grade_devices devices = devices.map grade_device ∧
    (∀ (device : StorageDevice) (e : PyExc),
      grade_device_body device = .error e →
      grade_device device = ⟨device, .ERROR, some .DATA_READ_ERROR, none, none⟩) := by
  refine ⟨by simp [grade_devices], rfl, ?_⟩
  intro device e he
  unfold grade_device
  rw [he]

/-- C2 witness: a one-device batch returns one result, and the concrete
SATA device whose grading body raises `TypeError` is converted to
`Error/DataReadError`. -/
theorem C2_witness :
    (grade_devices [minimal_sata_device]).length = 1 ∧
    grade_device minimal_sata_device =
      ⟨minimal_sata_device, .ERROR, some .DATA_READ_ERROR, none, none⟩ :=
  ⟨(C2_batch_exact_and_exceptions_contained [minimal_sata_device]).1,
   (C2_batch_exact_and_exceptions_contained [minimal_sata_device]).2.2
     minimal_sata_device .typeError rfl⟩

/-- C8: a device whose power-on hours resolve to nothing usable (not
reported, or unparseable, or non-positive) has an undetermined workload
(`none`, not a number), and is never flagged `HeavyUse`. -/
theorem C8_undetermined_workload_never_heavy_use (device : StorageDevice)
    (h : ∀ n : Int, (workload_inputs device).2.2.bind pyToInt = some n → n ≤ 0) :
    (calculate_workload device).1 = none ∧
    (grade_device device).flag_reason ≠ some .HEAVY_USE := by
  have h1 : (calculate_workload device).1 = none := by
    unfold calculate_workload
    dsimp only
    rcases hp : (workload_inputs device).2.2 with _ | poh
    · simp [hp]
    · rcases hpi : pyToInt poh with _ | n
      · simp [hp, hpi]
      · have hn : n ≤ 0 := h n (by rw [hp]; simpa using hpi)
        simp [hp, hpi, hn]
  refine ⟨h1, ?_⟩
  intro hf
  exact (grade_device_result device).2 hf h1

/-- C8 witness: a SATA device reporting `power_on_time.hours = 0` has an
undetermined workload and is not flagged `HeavyUse`. -/
theorem C8_witness :
    (calculate_workload zero_poh_device).1 = none ∧
    (grade_device zero_poh_device).flag_reason ≠ some .HEAVY_USE :=
  C8_undetermined_workload_never_heavy_use zero_poh_device
    (fun n hn => by
      have h0 : (some (0 : Int)) = some n := by
        rw [show (workload_inputs zero_poh_device).2.2.bind pyToInt = some 0 from rfl] at hn
        exact hn
      injection h0 with h0
      omega)

/-- C9: for every NVMe device that reaches the available-spare check (NVMe
data present and truthy, percentage-used check passed) and reports a numeric
available spare `s`, the grading fails with `AvailableSpare` exactly when
`s ≤ 97`. -/
theorem C9_available_spare_boundary (device : StorageDevice) {nd : Json}
    (s : Int)
    (hp : device.protocol = .NVME)
    (hnd : device.nvme_data = some nd)
    (hfal : nd.pyFalsy = false)
    (hpu : pyGtInt ((nvmeHealthLog nd).getD "percentage_used" (.int 0))
      PERCENT_USED_THRESHOLD = .ok false)
    (hs : (nvmeHealthLog nd).getD "available_spare"
      ((nvmeHealthLog nd).getD "avail_spare" (.int 100)) = .int s) :
    ((grade_device device).failure_reason = some .AVAILABLE_SPARE ↔ s ≤ 97) := by
  unfold grade_device grade_device_body grade_nvme_device
  rw [hnd]
  simp only [nvmeDataFalsy, hfal, Bool.and_false, if_false, has_failed_self_test,
    Bool.false_eq_true, hp, beq_self_eq_true, if_true]
  try dsimp only
  rw [hpu, hs]
  simp only [pyLeInt, AVAILABLE_SPARE_THRESHOLD]
  by_cases hle : s ≤ 97
  · simp [hle]
  · have hd : decide (s ≤ 97) = false := by simp [hle]
    rw [hd]
    simp only [hle, iff_false]
    repeat' split
    all_goals (rename_i heq)
    all_goals (repeat' split at heq)
    all_goals (first | (cases heq; simp) | simp_all)

/-- C9 witness: the boundary device reporting available spare 97 fails with
`AvailableSpare`; the same device reporting 98 does not. -/
theorem C9_witness :
    (grade_device (spare_boundary_device 97)).failure_reason =
      some .AVAILABLE_SPARE ∧
    ¬((grade_device (spare_boundary_device 98)).failure_reason =
      some .AVAILABLE_SPARE) := by
  constructor
  · exact (C9_available_spare_boundary (spare_boundary_device 97) 97
      rfl rfl rfl rfl rfl).mpr (by omega)
  · intro h
    have h98 := (C9_available_spare_boundary (spare_boundary_device 98) 98
      rfl rfl rfl rfl rfl).mp h
    omega

/-- C10: every graded device has status Pass, Fail or Error (never the
unused `Flagged` value); a failure reason is present exactly when the status
is Fail or Error; a flag is present only on a Pass; and a failure reason and
a flag are never both set. -/
theorem C10_grade_result_shape (device : StorageDevice) :
    (grade_device device).status ≠ .FLAGGED ∧
    ((grade_device device).failure_reason ≠ none ↔
      ((grade_device device).status = .FAIL ∨
       (grade_device device).status = .ERROR)) ∧
    ((grade_device device).flag_reason ≠ none →
      (grade_device device).status = .PASS) ∧
    ¬((grade_device device).failure_reason ≠ none ∧
      (grade_device device).flag_reason ≠ none) := by
  obtain ⟨⟨hs, hfr, hfl, hmx⟩, -⟩ := grade_device_result device
  refine ⟨?_, hfr, hfl, hmx⟩
  rcases hs with h | h | h <;> simp [h]
